import Mathlib

/-!
Verification of the `rsb/sls` repository: a parameter-store client over a
remote key-value configuration service (package `pstore`, the SSM client in
`src/unnamed/part_000`) and the lambda naming conventions (`src/lambda.go`).

The remote parameter service (AWS SSM) is external to the repository; it is
modelled, following the spec's §3/§6 description, as a finite map from string
keys to string values, with the five-operation protocol (get, get-batch,
get-by-path paged, put, delete).  The `failure` error library (also external)
is modelled as a value carrying an error class and a message; wrapping
preserves the class, as that library documents and as the spec's §7 relies on.
-/

namespace Sls

/-- Error classes of the `failure` library as used by the spec's taxonomy
(§7): `InvalidInput` (empty required argument), `NotFound`, `Conflict`,
`System`.  The client code itself only ever constructs `System`
(`failure.System` / `failure.ToSystem`) and `NotFound` (`failure.ToNotFound`)
failures; `InvalidInput` and `Conflict` are modelled from the spec so that
claims naming them can be stated. -/
inductive ErrKind where
  | System
  | NotFound
  | Conflict
  | InvalidInput
deriving DecidableEq, Repr

/-- A typed failure: an error class together with the formatted message.
Models a `failure` library error value. -/
structure Failure where
  kind : ErrKind
  msg : String
deriving DecidableEq, Repr

/-- `failure.System(msg)`: a `System`-classified failure. -/
def Failure.system (m : String) : Failure :=
  { kind := ErrKind.System, msg := m }

/-- `failure.Wrap(err, msg)`: adds context to the message and preserves the
error class of the wrapped failure. -/
def Failure.wrap (e : Failure) (m : String) : Failure :=
  { kind := e.kind, msg := m ++ ": " ++ e.msg }

/-- `failure.IsNotFound(err)` for a non-nil error. -/
def Failure.isNotFound (e : Failure) : Bool :=
  e.kind == ErrKind.NotFound

/-- The error class of the error side of a client result, if any. -/
def errKindOf {α : Type} : Except Failure α → Option ErrKind
  | Except.error e => some e.kind
  | Except.ok _ => none

/-- An error returned by the remote SSM API: either the typed
`types.ParameterNotFound`, or any other remote/transport failure. -/
inductive APIError where
  | parameterNotFound
  | other (msg : String)
deriving DecidableEq, Repr

/-- `handleAPIError` (part_000 lines 217-229): wraps a remote failure into a
generic `System` failure, except that `types.ParameterNotFound` is
reclassified into a `NotFound` failure.  (The Go function also passes a nil
error through; it is only ever called with a non-nil error.) -/
def handleAPIError (e : APIError) (msg : String) : Failure :=
  match e with
  | APIError.parameterNotFound => { kind := ErrKind.NotFound, msg := msg }
  | APIError.other _ => { kind := ErrKind.System, msg := msg }

/-- Modelled from the spec: the remote parameter store (§3, §6) is a
key-value map, here an association list from hierarchical string keys to
string values.  The repository only talks to it through the five-operation
`AdapterAPI`; it never holds local state. -/
structure SSMState where
  params : List (String × String)
deriving DecidableEq, Repr

/-- Value held by the remote store under `key`, if any.  Models the remote
`GetParameter` succeeding with the stored value exactly when the key is
present and failing with `types.ParameterNotFound` otherwise. -/
def lookupParam (st : SSMState) (key : String) : Option String :=
  (st.params.find? (fun p => p.1 == key)).map (fun p => p.2)

/-- Insert-or-update of one pair in an association list: the map-write used
both by the remote `PutParameter` model and by the Go `result[name] = value`
map assignment in `Path` / `Collect`. -/
def insertPair : List (String × String) → String → String → List (String × String)
  | [], k, v => [(k, v)]
  | (k', v') :: rest, k, v =>
      if k' == k then (k, v) :: rest else (k', v') :: insertPair rest k v

/-- Modelled from the spec: the remote `PutParameter` writes the value under
the key, creating or overwriting (§4.1 "writes the new value (creating or
overwriting)"). -/
def ssmPutParameter (st : SSMState) (key value : String) : SSMState :=
  { params := insertPair st.params key value }

/-- Modelled from the spec: the remote `DeleteParameter` removes the key from
the store. -/
def ssmDeleteParameter (st : SSMState) (key : String) : SSMState :=
  { params := st.params.filter (fun p => p.1 != key) }

/-- `Client.Param` (part_000 lines 46-67), the spec's GetSingle: fails on an
empty key with a `failure.System` error before any remote call; otherwise
issues `GetParameter` and classifies a remote failure through
`handleAPIError`. -/
def Param (st : SSMState) (key : String) : Except Failure String :=
  if key == "" then
    Except.error (Failure.system "key is empty, a non empty key is required")
  else
    match lookupParam st key with
    | some v => Except.ok v
    | none =>
        Except.error (handleAPIError APIError.parameterNotFound
          ("c.api.GetParameter failed (" ++ key ++ ")"))

example : Param { params := [("/cfg/a", "x")] } "/cfg/a" = Except.ok "x" := rfl

example : errKindOf (Param { params := [] } "/cfg/a") = some ErrKind.NotFound := rfl

example : errKindOf (Param { params := [("/cfg/a", "x")] } "") = some ErrKind.System := rfl

/-- `strings.HasPrefix(s, p)`: `p` is a prefix of `s`, compared over the
strings' characters. -/
def goHasPrefix (s p : String) : Bool :=
  List.isPrefixOf p.data s.data

/-- `Client.EnsurePathPrefix` (part_000 lines 209-215): prepend `/` unless the
path already starts with `/` (`strings.HasPrefix`). -/
def EnsurePathPrefix (path : String) : String :=
  if goHasPrefix path "/" then path else "/" ++ path

/-- One page result yielded by `pager.NextPage`: on success the page's
parameter list, on failure the remote error (in which case the Go SDK
paginator returns a nil output pointer alongside the error). -/
abbrev PageResult := Except APIError (List (String × String))

/-- Outcome of a `Client.Path` call.  `ok` is a normal return with a nil
error; `errReturn` is a return of a (possibly empty) map together with a
non-nil error; `panic` is a Go runtime panic. -/
inductive PathResult where
  | ok (result : List (String × String))
  | errReturn (result : List (String × String)) (e : Failure)
  | panic
deriving DecidableEq, Repr

/-- The pagination loop of `Client.Path` (part_000 lines 92-103).  A
successful page's pairs are written into the result map; when `NextPage`
returns an error the Go code appends it to a local `errs` slice and then
ranges over `out.Parameters` — but `out` is the nil pointer the paginator
returned with the error, so the field access panics. -/
def pathLoop : List PageResult → List (String × String) → PathResult
  | [], acc => PathResult.ok acc
  | Except.ok ps :: rest, acc =>
      pathLoop rest (ps.foldl (fun m p => insertPair m p.1 p.2) acc)
  | Except.error _ :: _, _ => PathResult.panic

/-- `Client.Path` (part_000 lines 70-106), the spec's GetByPath.  `pager`
models the remote `GetParametersByPath` pagination: the sequence of page
results for a given (normalized) path and recursive flag.  `recursive` models
the Go variadic `recursive ...bool` argument (default `true`). -/
def Path (pager : String → Bool → List PageResult) (path : String)
    (recursive : List Bool) : PathResult :=
  if path == "" then
    PathResult.errReturn [] (Failure.system "path is empty")
  else
    let path2 := EnsurePathPrefix path
    let isRecursive : Bool := recursive.headD true
    pathLoop (pager path2 isRecursive) []

/-- Modelled from the spec: the remote `GetParametersByPath` returns the
parameters whose key begins with the requested hierarchical path prefix
(glossary: "Path prefix fetch"), split here into pages of at most ten, the
provider's page size. -/
def ssmPagesForPath (st : SSMState) (path : String) (_recursive : Bool) :
    List PageResult :=
  ((st.params.filter (fun p => goHasPrefix p.1 path)).toChunks 10).map Except.ok

/-- `Client.Collect` (part_000 lines 110-149), the spec's GetMany: fails with
a `failure.System` error when no keys are given; otherwise one batch
`GetParameters` call returning the pairs for known keys and the list of keys
the store reported invalid (the Go code drops empty strings from the invalid
list). -/
def Collect (st : SSMState) (keys : List String) :
    Except Failure (List (String × String) × List String) :=
  if keys.length == 0 then
    Except.error (Failure.system "keys must have at least one key")
  else
    let found := (keys.filterMap (fun k => (lookupParam st k).map (fun v => (k, v)))).foldl
      (fun m p => insertPair m p.1 p.2) []
    let invalid := (keys.filter (fun k => (lookupParam st k).isNone)).filter
      (fun k => !(k == ""))
    Except.ok (found, invalid)

/-- `Client.Delete` (part_000 lines 153-170): read the current value through
`Param` (wrapping a failure, class preserved), then `DeleteParameter`, and
return the pre-deletion value.  Returns the result together with the store
state after the call. -/
def Delete (st : SSMState) (key : String) : Except Failure String × SSMState :=
  match Param st key with
  | Except.error e =>
      (Except.error (e.wrap ("c.Param failed (" ++ key ++ ")")), st)
  | Except.ok old => (Except.ok old, ssmDeleteParameter st key)

/-- Lines 180-206 of `Client.Put`, after the initial read: if a value was
found and equals the new value, return it without writing; compute
`isOverwrite` from the variadic flag (default false); if overwrite is
disallowed and the read-back value is non-empty, fail with the
`failure.System` conflict error; otherwise issue `PutParameter` and return
the prior value.  `old` is the value `Param` returned (empty string when it
failed) and `errIsNotFound` records whether `Param` failed with NotFound. -/
def putAfterRead (st : SSMState) (key value old : String) (errIsNotFound : Bool)
    (overwrite : List Bool) : Except Failure String × SSMState :=
  if !errIsNotFound && old == value then
    (Except.ok old, st)
  else
    let isOverwrite : Bool := overwrite.headD false
    if !isOverwrite && old != "" then
      (Except.error (Failure.system ("param (" ++ key ++ ") exists but overwrite is false")), st)
    else
      (Except.ok old, ssmPutParameter st key value)

/-- `Client.Put` (part_000 lines 174-207): read the current value; a failure
other than NotFound is wrapped and returned; otherwise fall through to the
compare-and-write logic of `putAfterRead`.  Returns the result together with
the store state after the call. -/
def Put (st : SSMState) (key value : String) (overwrite : List Bool) :
    Except Failure String × SSMState :=
  match Param st key with
  | Except.error e =>
      if !e.isNotFound then (Except.error (e.wrap "c.Param failed"), st)
      else putAfterRead st key value "" true overwrite
  | Except.ok old => putAfterRead st key value old false overwrite

/-- The lambda trigger type of `src/lambda.go`: a string wrapper. -/
abbrev LambdaTrigger := String

def APIGWTrigger : LambdaTrigger := "apigw"

def DDBTrigger : LambdaTrigger := "ddb"

def DirectTrigger : LambdaTrigger := "direct"

def CognitoTrigger : LambdaTrigger := "cognito"

def S3Trigger : LambdaTrigger := "s3"

def SNSTrigger : LambdaTrigger := "sns"

def SQSTrigger : LambdaTrigger := "sqs"

/-- The seven registered trigger names (lambda.go lines 18-24). -/
def registeredTriggers : List LambdaTrigger :=
  [APIGWTrigger, DDBTrigger, DirectTrigger, CognitoTrigger, S3Trigger,
    SNSTrigger, SQSTrigger]

/-- `strings.ToLower` restricted to the ASCII range (the only range the
seven registered trigger names exercise): map each upper-case letter to its
lower-case counterpart. -/
def lowerChar (c : Char) : Char :=
  if c.isUpper then Char.ofNat (c.toNat + 32) else c

/-- `strings.ToLower(s)` over the string's characters. -/
def toLowerStr (s : String) : String :=
  { data := s.data.map lowerChar }

/-- `ToLambdaTrigger` (lambda.go lines 37-60): switch on `strings.ToLower(s)`
over the seven registered triggers; any other string yields an error (whose
message interpolates the zero-value trigger `t`, hence the empty
parenthesis). -/
def ToLambdaTrigger (s : String) : Except String LambdaTrigger :=
  if toLowerStr s == APIGWTrigger then Except.ok APIGWTrigger
  else if toLowerStr s == DDBTrigger then Except.ok DDBTrigger
  else if toLowerStr s == DirectTrigger then Except.ok DirectTrigger
  else if toLowerStr s == CognitoTrigger then Except.ok CognitoTrigger
  else if toLowerStr s == S3Trigger then Except.ok S3Trigger
  else if toLowerStr s == SNSTrigger then Except.ok SNSTrigger
  else if toLowerStr s == SQSTrigger then Except.ok SQSTrigger
  else Except.error "event trigger () is not registered"

example : ToLambdaTrigger "ApiGW" = Except.ok APIGWTrigger := rfl

example : ToLambdaTrigger "kinesis" = Except.error "event trigger () is not registered" := rfl

example :
    Put { params := [("/k", "a")] } "/k" "b" [] =
      (Except.error (Failure.system "param (/k) exists but overwrite is false"),
        { params := [("/k", "a")] }) := rfl

example :
    Put { params := [("/k", "")] } "/k" "b" [] =
      (Except.ok "", { params := [("/k", "b")] }) := rfl

example :
    Delete { params := [("/k", "a"), ("/m", "c")] } "/k" =
      (Except.ok "a", { params := [("/m", "c")] }) := rfl

example :
    Path (fun _ _ => [Except.ok [("/cfg/a", "1")], Except.error (APIError.other "net")])
      "cfg" [] = PathResult.panic := rfl

example :
    Path (fun p _ => if p == "/cfg" then [Except.ok [("/cfg/a", "1")]] else [])
      "cfg" [] = PathResult.ok [("/cfg/a", "1")] := by decide

/-- The extracted value of a successful client result, if any. -/
def okValOf {α : Type} : Except Failure α → Option α
  | Except.error _ => none
  | Except.ok v => some v

/-- The failure attached to a `Path` return, if any. -/
def pathErrKind : PathResult → Option ErrKind
  | PathResult.errReturn _ e => some e.kind
  | _ => none

lemma Param_eq_ok (st : SSMState) (k v : String) (hk : k ≠ "")
    (hl : lookupParam st k = some v) : Param st k = Except.ok v := by
  unfold Param
  rw [hl]
  simp [hk]

lemma Param_eq_notFound (st : SSMState) (k : String) (hk : k ≠ "")
    (hl : lookupParam st k = none) :
    Param st k =
      Except.error
        { kind := ErrKind.NotFound, msg := "c.api.GetParameter failed (" ++ k ++ ")" } := by
  unfold Param
  rw [hl]
  simp [hk, handleAPIError]

lemma find_insertPair (l : List (String × String)) (k v : String) :
    ((insertPair l k v).find? (fun p => p.1 == k)).map (fun p => p.2) = some v := by
  induction l with
  | nil => simp [insertPair]
  | cons hd tl ih =>
      rcases hd with ⟨k', v'⟩
      by_cases h : k' = k
      · simp [insertPair, h]
      · simp [insertPair, h, ih]

/-- After the remote `PutParameter`, the store holds the new value. -/
lemma lookupParam_put_self (st : SSMState) (k v : String) :
    lookupParam (ssmPutParameter st k v) k = some v := by
  unfold lookupParam ssmPutParameter
  exact find_insertPair st.params k v

lemma find_filter_ne (l : List (String × String)) (k : String) :
    (l.filter (fun p => p.1 != k)).find? (fun p => p.1 == k) = none := by
  induction l with
  | nil => simp
  | cons hd tl ih =>
      by_cases h : hd.1 = k
      · simp [h, ih]
      · simp [h, ih]

/-- After the remote `DeleteParameter`, the key is absent. -/
lemma lookupParam_delete_self (st : SSMState) (k : String) :
    lookupParam (ssmDeleteParameter st k) k = none := by
  unfold lookupParam ssmDeleteParameter
  rw [find_filter_ne]
  rfl

/-- C4: if the stored value equals the value being put, `Put` returns the
current value with no error, leaves the store untouched, and issues no
write, for any overwrite flag. -/
theorem put_same_value_is_noop (st : SSMState) (k v : String) (ow : List Bool)
    (hk : k ≠ "") (hl : lookupParam st k = some v) :
    Put st k v ow = (Except.ok v, st) := by
  unfold Put
  rw [Param_eq_ok st k v hk hl]
  unfold putAfterRead
  simp

/-- Witness for C4 at a concrete store. -/
theorem put_same_value_is_noop_witness :
    Put { params := [("/k", "a")] } "/k" "a" [true] =
      (Except.ok "a", { params := [("/k", "a")] }) :=
  put_same_value_is_noop { params := [("/k", "a")] } "/k" "a" [true]
    (by decide) (by decide)

/-- C1 as stated is false on the code: at a store holding a non-empty
differing value the failure is `System`-classified (the code builds it with
`failure.System`), not `Conflict`; and at a store holding the empty string
under the key, `Put` with overwrite omitted does not fail at all — it writes
the new value. -/
theorem put_conflict_claim_counterexample :
    (errKindOf (Put { params := [("/k", "a")] } "/k" "b" []).1 = some ErrKind.System
      ∧ some ErrKind.System ≠ some ErrKind.Conflict)
    ∧ okValOf (Put { params := [("/k", "")] } "/k" "b" []).1 = some ""
    ∧ (Put { params := [("/k", "")] } "/k" "b" []).2 = { params := [("/k", "b")] } := by
  decide

/-- C1 amended: for a key holding a non-empty value `v1 ≠ v2`, `Put` with
overwrite false (or omitted) fails with the `System`-classified error
"param (key) exists but overwrite is false" and does not write. -/
theorem put_no_overwrite_fails_system (st : SSMState) (k v1 v2 : String)
    (ow : List Bool) (hk : k ≠ "") (hl : lookupParam st k = some v1)
    (hne : v1 ≠ v2) (hv1 : v1 ≠ "") (how : ow.headD false = false) :
    Put st k v2 ow =
      (Except.error
          (Failure.system ("param (" ++ k ++ ") exists but overwrite is false")),
        st) := by
  rw [List.headD_eq_head?_getD] at how
  unfold Put
  rw [Param_eq_ok st k v1 hk hl]
  unfold putAfterRead
  simp [hne, hv1, how]

/-- Witness for the amended C1 at a concrete store. -/
theorem put_no_overwrite_fails_system_witness :
    Put { params := [("/k", "a")] } "/k" "b" [] =
      (Except.error
          (Failure.system ("param (" ++ "/k" ++ ") exists but overwrite is false")),
        { params := [("/k", "a")] }) :=
  put_no_overwrite_fails_system { params := [("/k", "a")] } "/k" "a" "b" []
    (by decide) (by decide) (by decide) (by decide) (by decide)

/-- C10: a key that exists with the empty string as its stored value passes
the `old != ""` existence check, so `Put` with overwrite false succeeds and
writes the new value — the check distinguishes keys only by whether the value
read back is empty. -/
theorem put_empty_stored_value_writes (st : SSMState) (k v : String)
    (ow : List Bool) (hk : k ≠ "") (hl : lookupParam st k = some "")
    (hv : v ≠ "") (how : ow.headD false = false) :
    Put st k v ow = (Except.ok "", ssmPutParameter st k v)
      ∧ lookupParam (ssmPutParameter st k v) k = some v := by
  rw [List.headD_eq_head?_getD] at how
  constructor
  · unfold Put
    rw [Param_eq_ok st k "" hk hl]
    unfold putAfterRead
    simp [how]
    intro h
    exact absurd h.symm hv
  · exact lookupParam_put_self st k v

/-- C5: deleting an existing key returns the pre-deletion value and removes
the key; deleting a missing key fails with a NotFound-classified error
(`failure.Wrap` preserves the class) and leaves the store unchanged. -/
theorem delete_returns_old_value_and_removes (st : SSMState) (k : String)
    (hk : k ≠ "") :
    (∀ v, lookupParam st k = some v →
      Delete st k = (Except.ok v, ssmDeleteParameter st k)
        ∧ lookupParam (Delete st k).2 k = none)
    ∧ (lookupParam st k = none →
        errKindOf (Delete st k).1 = some ErrKind.NotFound ∧ (Delete st k).2 = st) := by
  constructor
  · intro v hv
    have hd : Delete st k = (Except.ok v, ssmDeleteParameter st k) := by
      unfold Delete
      rw [Param_eq_ok st k v hk hv]
    refine ⟨hd, ?_⟩
    rw [hd]
    exact lookupParam_delete_self st k
  · intro hn
    have hd : Delete st k =
        (Except.error
          ((Failure.mk ErrKind.NotFound ("c.api.GetParameter failed (" ++ k ++ ")")).wrap
            ("c.Param failed (" ++ k ++ ")")), st) := by
      unfold Delete
      rw [Param_eq_notFound st k hk hn]
    rw [hd]
    exact ⟨rfl, rfl⟩

/-- Witness for C5 at a concrete store: both the present-key and the
missing-key branches. -/
theorem delete_returns_old_value_and_removes_witness :
    (Delete { params := [("/k", "a"), ("/m", "c")] } "/k" =
        (Except.ok "a", ssmDeleteParameter { params := [("/k", "a"), ("/m", "c")] } "/k"))
    ∧ errKindOf (Delete { params := [] } "/k").1 = some ErrKind.NotFound := by
  constructor
  · exact ((delete_returns_old_value_and_removes
      { params := [("/k", "a"), ("/m", "c")] } "/k" (by decide)).1 "a" (by decide)).1
  · exact ((delete_returns_old_value_and_removes
      { params := [] } "/k" (by decide)).2 (by decide)).1

/-- C6: `handleAPIError` classifies a remote failure as NotFound exactly when
the remote reported `types.ParameterNotFound`, and as System in every other
case; consequently a single-key read of an absent key surfaces NotFound. -/
theorem remote_error_classification (e : APIError) (msg : String) :
    ((handleAPIError e msg).kind = ErrKind.NotFound ↔ e = APIError.parameterNotFound)
    ∧ ((handleAPIError e msg).kind = ErrKind.System ↔ e ≠ APIError.parameterNotFound)
    ∧ (∀ (st : SSMState) (k : String), k ≠ "" → lookupParam st k = none →
        errKindOf (Param st k) = some ErrKind.NotFound) := by
  refine ⟨?_, ?_, ?_⟩
  · cases e <;> simp [handleAPIError]
  · cases e <;> simp [handleAPIError]
  · intro st k hk hn
    rw [Param_eq_notFound st k hk hn]
    rfl

/-- Witness for C6: the two classifications and an absent-key read at
concrete inputs. -/
theorem remote_error_classification_witness :
    ((handleAPIError APIError.parameterNotFound "m").kind = ErrKind.NotFound)
    ∧ ((handleAPIError (APIError.other "timeout") "m").kind = ErrKind.System)
    ∧ errKindOf (Param { params := [] } "/k") = some ErrKind.NotFound := by
  refine ⟨?_, ?_, ?_⟩
  · exact (remote_error_classification APIError.parameterNotFound "m").1.mpr rfl
  · exact (remote_error_classification (APIError.other "timeout") "m").2.1.mpr
      (by decide)
  · exact (remote_error_classification APIError.parameterNotFound "m").2.2
      { params := [] } "/k" (by decide) (by decide)

/-- C7: with overwrite true, `Put` on a key holding `v1 ≠ v2` returns `v1`
and leaves the store holding `v2`; on a missing key (any overwrite flag) it
creates the key with the new value and returns the empty string. -/
theorem put_overwrite_and_create (st : SSMState) (k v1 v2 : String)
    (ow : List Bool) (hk : k ≠ "") :
    (lookupParam st k = some v1 → v1 ≠ v2 → ow.headD false = true →
      Put st k v2 ow = (Except.ok v1, ssmPutParameter st k v2)
        ∧ lookupParam (Put st k v2 ow).2 k = some v2)
    ∧ (lookupParam st k = none →
        Put st k v2 ow = (Except.ok "", ssmPutParameter st k v2)
          ∧ lookupParam (Put st k v2 ow).2 k = some v2) := by
  constructor
  · intro hv hne how
    rw [List.headD_eq_head?_getD] at how
    have hp : Put st k v2 ow = (Except.ok v1, ssmPutParameter st k v2) := by
      unfold Put
      rw [Param_eq_ok st k v1 hk hv]
      unfold putAfterRead
      simp [hne, how]
    refine ⟨hp, ?_⟩
    rw [hp]
    exact lookupParam_put_self st k v2
  · intro hn
    have hp : Put st k v2 ow = (Except.ok "", ssmPutParameter st k v2) := by
      unfold Put
      rw [Param_eq_notFound st k hk hn]
      unfold putAfterRead
      simp [Failure.isNotFound]
    refine ⟨hp, ?_⟩
    rw [hp]
    exact lookupParam_put_self st k v2

/-- Witness for C7: overwrite of an existing differing value, and creation of
a missing key, at concrete stores. -/
theorem put_overwrite_and_create_witness :
    (Put { params := [("/k", "a")] } "/k" "b" [true] =
        (Except.ok "a", ssmPutParameter { params := [("/k", "a")] } "/k" "b"))
    ∧ (Put { params := [] } "/k" "b" [] =
        (Except.ok "", ssmPutParameter { params := [] } "/k" "b")) := by
  constructor
  · exact ((put_overwrite_and_create { params := [("/k", "a")] } "/k" "a" "b" [true]
      (by decide)).1 (by decide) (by decide) (by decide)).1
  · exact ((put_overwrite_and_create { params := [] } "/k" "nil" "b" []
      (by decide)).2 (by decide)).1

/-- C3 as stated is false on the code: the empty-argument failures are built
with `failure.System`, not with the taxonomy's InvalidInput class. -/
theorem empty_argument_invalidinput_counterexample :
    (errKindOf (Param { params := [] } "") = some ErrKind.System
      ∧ some ErrKind.System ≠ some ErrKind.InvalidInput)
    ∧ errKindOf (Collect { params := [] } []) = some ErrKind.System
    ∧ pathErrKind (Path (fun _ _ => []) "" []) = some ErrKind.System := by
  decide

/-- C3 amended: an empty required argument — GetSingle with an empty key,
GetByPath with an empty path, GetMany with zero keys — fails with a
`System`-classified error, and no remote request is made: the result does not
depend on the store or on the remote pager. -/
theorem empty_argument_fails_system (st : SSMState)
    (pager : String → Bool → List PageResult) (recursive : List Bool) :
    Param st "" = Except.error (Failure.system "key is empty, a non empty key is required")
    ∧ Path pager "" recursive = PathResult.errReturn [] (Failure.system "path is empty")
    ∧ Collect st [] = Except.error (Failure.system "keys must have at least one key") :=
  ⟨rfl, rfl, rfl⟩

/-- Witness for C10 at a concrete store. -/
theorem put_empty_stored_value_writes_witness :
    Put { params := [("/k", "")] } "/k" "b" [] =
        (Except.ok "", ssmPutParameter { params := [("/k", "")] } "/k" "b")
      ∧ lookupParam (ssmPutParameter { params := [("/k", "")] } "/k" "b") "/k" =
        some "b" :=
  put_empty_stored_value_writes { params := [("/k", "")] } "/k" "b" []
    (by decide) (by decide) (by decide) (by decide)

/-- C2: the claimed behaviour — a failing page is swallowed and the map
accumulated from the other pages is returned with a nil error — does not
happen: on the concrete fetch whose second page fails, the call hits the
nil-pointer dereference of the page output (a Go runtime panic) and never
returns the accumulated `[("/cfg/a", "1")]`. -/
theorem path_page_error_panics :
    Path
        (fun _ _ =>
          [Except.ok [("/cfg/a", "1")],
            Except.error (APIError.other "transport failure")])
        "cfg" [] = PathResult.panic
    ∧ PathResult.panic ≠ PathResult.ok [("/cfg/a", "1")] := by
  decide

/-- C8: paths are normalized to begin with the separator before the remote is
consulted, so for a non-empty path without a leading slash, `Path` over any
remote pager agrees with `Path` on the slash-prefixed path. -/
theorem path_leading_slash_normalization (pager : String → Bool → List PageResult)
    (p : String) (recursive : List Bool) (hp : p ≠ "")
    (hs : goHasPrefix p "/" = false) :
    Path pager p recursive = Path pager ("/" ++ p) recursive := by
  have hdata : ("/" ++ p).data = '/' :: p.data := by
    rw [String.data_append]
    rfl
  have hpre : goHasPrefix ("/" ++ p) "/" = true := by
    unfold goHasPrefix
    rw [hdata]
    simp [List.isPrefixOf]
  have hne2 : ("/" ++ p) ≠ "" := by
    intro h
    have h2 := congrArg String.data h
    rw [hdata] at h2
    have h3 : '/' :: p.data = ([] : List Char) := h2
    exact List.noConfusion h3
  have hb1 : (p == "") = false := by simp [hp]
  have hb2 : (("/" ++ p) == "") = false := by simp [hne2]
  unfold Path
  rw [hb1, hb2]
  simp only [Bool.false_eq_true, if_false]
  unfold EnsurePathPrefix
  rw [hs, hpre]
  simp

/-- Witness for C8 at a concrete path and pager. -/
theorem path_leading_slash_normalization_witness :
    Path (fun p2 _ => [Except.ok [(p2 ++ "/a", "1")]]) "cfg" [] =
      Path (fun p2 _ => [Except.ok [(p2 ++ "/a", "1")]]) ("/" ++ "cfg") [] :=
  path_leading_slash_normalization (fun p2 _ => [Except.ok [(p2 ++ "/a", "1")]])
    "cfg" [] (by decide) (by decide)

/-- C9: `ToLambdaTrigger` succeeds exactly when the lowercase form of its
argument is one of the seven registered trigger names, gives the same result
for any two casings with the same lowercase form, and fails for every string
outside the closed enumeration. -/
theorem toLambdaTrigger_closed_enumeration (s : String) :
    ((∃ t, ToLambdaTrigger s = Except.ok t) ↔ toLowerStr s ∈ registeredTriggers)
    ∧ (∀ s2, toLowerStr s = toLowerStr s2 → ToLambdaTrigger s = ToLambdaTrigger s2)
    ∧ (toLowerStr s ∉ registeredTriggers →
        ToLambdaTrigger s = Except.error "event trigger () is not registered") := by
  refine ⟨?_, ?_, ?_⟩
  · unfold ToLambdaTrigger registeredTriggers
    split_ifs with h1 h2 h3 h4 h5 h6 h7 <;>
      simp_all [APIGWTrigger, DDBTrigger, DirectTrigger, CognitoTrigger,
        S3Trigger, SNSTrigger, SQSTrigger]
  · intro s2 h
    unfold ToLambdaTrigger
    rw [h]
  · intro hmem
    unfold ToLambdaTrigger
    split_ifs with h1 h2 h3 h4 h5 h6 h7 <;>
      simp_all [registeredTriggers, APIGWTrigger, DDBTrigger, DirectTrigger,
        CognitoTrigger, S3Trigger, SNSTrigger, SQSTrigger]

/-- Witness for C9: a mixed-casing success, case-insensitive agreement, and a
string outside the enumeration, at concrete inputs. -/
theorem toLambdaTrigger_closed_enumeration_witness :
    toLowerStr "ApiGW" ∈ registeredTriggers
    ∧ ToLambdaTrigger "SQS" = ToLambdaTrigger "sqs"
    ∧ ToLambdaTrigger "kinesis" = Except.error "event trigger () is not registered" := by
  refine ⟨?_, ?_, ?_⟩
  · exact (toLambdaTrigger_closed_enumeration "ApiGW").1.mp ⟨APIGWTrigger, rfl⟩
  · exact (toLambdaTrigger_closed_enumeration "SQS").2.1 "sqs" (by decide)
  · exact (toLambdaTrigger_closed_enumeration "kinesis").2.2 (by decide)

end Sls
